import Mathlib

/-!
Verification of the quote pricing and lifecycle engine of the chchgold
bullion-quoting application.  The JavaScript sources are shallowly embedded:
pure functions become Lean functions over `ℚ` (the code uses ordinary
floating-point arithmetic; we model the real-number intent of each formula
exactly), database-touching services become explicit state passing over a
`QuotesDB` record, and fallible operations return `Except` or `Option`.
-/

namespace ChchGold

/-! ## Valuation engine (public/js/admin_create_edit.js) -/

/-- Spot gram prices as exposed on the admin card via the data attributes
`data-gold-gram-nzd` and `data-silver-gram-nzd`. -/
structure GramPrices where
  goldGram : ℚ
  silverGram : ℚ
  deriving DecidableEq, Repr

/-- Model of one item row of the create/edit form, as read by
`calculateItemPrice`.  A field is `none` when the corresponding input is
empty or does not parse (JavaScript `parseFloat` / `parseInt` returning
`NaN`). -/
structure ItemRowInput where
  metalType : String
  weight : Option ℚ
  quantity : Option ℕ
  percent : Option ℚ
  deriving DecidableEq, Repr

/-- Source line `parseFloat(row.querySelector(".weight-input").value) || 0`:
a missing or unparseable weight defaults to 0.  (For a parsed value, `x || 0`
maps `0` to `0`, so only the `none` case matters.) -/
def rowWeight (r : ItemRowInput) : ℚ :=
  r.weight.getD 0

/-- Source line `parseInt(row.querySelector(".quantity-input").value) || 1`:
a missing, unparseable, or zero quantity defaults to 1 (JavaScript `0` is
falsy, so `0 || 1` is `1`). -/
def rowQuantity (r : ItemRowInput) : ℕ :=
  match r.quantity with
  | none => 1
  | some 0 => 1
  | some n => n

/-- Source line `parseFloat(row.querySelector(".percent-input").value) || 0`. -/
def rowPercent (r : ItemRowInput) : ℚ :=
  r.percent.getD 0

/-- The gram price selected by the `metalType === "Gold"` /
`metalType === "Silver"` branches of `calculateItemPrice`; any other metal
type leaves the base price at its initial value 0. -/
def gramPriceForMetal (p : GramPrices) (metalType : String) : ℚ :=
  if metalType = "Gold" then p.goldGram
  else if metalType = "Silver" then p.silverGram
  else 0

/-- The `basePrice` local of `calculateItemPrice`:
`weight * goldGramPrice * quantity` (resp. silver), and 0 for any other
metal type. -/
def basePrice (r : ItemRowInput) (p : GramPrices) : ℚ :=
  if r.metalType = "Gold" then rowWeight r * p.goldGram * (rowQuantity r : ℚ)
  else if r.metalType = "Silver" then rowWeight r * p.silverGram * (rowQuantity r : ℚ)
  else 0

/-- The `finalPrice` computed by `calculateItemPrice`:
`Math.max(0, basePrice * (1 - percent / 100))`. -/
def calculateItemPrice (r : ItemRowInput) (p : GramPrices) : ℚ :=
  max 0 (basePrice r p * (1 - rowPercent r / 100))

/-- Rounding to two decimal places; models JavaScript `toFixed(2)`
(round-to-nearest) on the live-price span, for values that are not
floating-point ties. -/
def round2 (q : ℚ) : ℚ :=
  (⌊q * 100 + 1 / 2⌋ : ℚ) / 100

/-- The text written into the `.live-price` span of each row:
`finalPrice.toFixed(2)`. -/
def displayedItemPrice (r : ItemRowInput) (p : GramPrices) : ℚ :=
  round2 (calculateItemPrice r p)

/-- The `updateGrandTotal` function: it sums
`parseFloat(priceSpan.textContent)` over every `.live-price` span, i.e. the
two-decimal displayed item prices, not the unrounded finals. -/
def updateGrandTotal (rows : List ItemRowInput) (p : GramPrices) : ℚ :=
  rows.foldl (fun total r => total + displayedItemPrice r p) 0

/-! ## Weight denomination table (src/config/weightOptions.js) -/

/-- One entry of the static weight dropdown table.  The `value` field is the
string placed on the HTML option (and auto-filled into the weight input on
selection); `text` is the display label. -/
structure WeightOption where
  value : String
  text : String
  group : String
  deriving DecidableEq, Repr

/-- The `weightOptions` array of src/config/weightOptions.js, verbatim. -/
def weightOptions : List WeightOption :=
  [ ⟨"1", "1g", "Metric"⟩,
    ⟨"5", "5g", "Metric"⟩,
    ⟨"10", "10g", "Metric"⟩,
    ⟨"20", "20g", "Metric"⟩,
    ⟨"50", "50g", "Metric"⟩,
    ⟨"100", "100g", "Metric"⟩,
    ⟨"500", "500g", "Metric"⟩,
    ⟨"1000", "1 Kgs", "Metric"⟩,
    ⟨"0.0", "Half Sovereign", "Imperial/Other"⟩,
    ⟨"0", "Sovereign", "Imperial/Other"⟩,
    ⟨"1.555175", "1/20 oz", "Imperial/Other"⟩,
    ⟨"3.11035", "1/10 oz", "Imperial/Other"⟩,
    ⟨"7.775869", "1/4 oz", "Imperial/Other"⟩,
    ⟨"15.55175", "1/2 oz", "Imperial/Other"⟩,
    ⟨"31.1035", "1 oz", "Imperial/Other"⟩,
    ⟨"62.207", "2 oz", "Imperial/Other"⟩,
    ⟨"155.5175", "5 oz", "Imperial/Other"⟩,
    ⟨"311.035", "10 oz", "Imperial/Other"⟩ ]

/-- Digit-string to natural number; `none` on a non-digit character. -/
def decDigits (cs : List Char) : Option ℕ :=
  cs.foldl
    (fun acc c =>
      match acc with
      | none => none
      | some n => if c.isDigit then some (n * 10 + (c.toNat - 48)) else none)
    (some 0)

/-- Splits a character list at the first dot, returning the integer part
and, when a dot is present, the remainder. -/
def splitDot : List Char → List Char × Option (List Char)
  | [] => ([], none)
  | c :: cs =>
      if c = '.' then ([], some cs)
      else
        let rest := splitDot cs
        (c :: rest.1, rest.2)

/-- Model of JavaScript `parseFloat` restricted to the plain decimal
literals appearing in `weightOptions.value` (digits with at most one dot). -/
def parseDecimal (s : String) : Option ℚ :=
  match splitDot s.toList with
  | (intPart, none) => (decDigits intPart).map (fun n => (n : ℚ))
  | (intPart, some fracPart) =>
      match decDigits intPart, decDigits fracPart with
      | some n, some f => some ((n : ℚ) + (f : ℚ) / ((10 : ℚ) ^ fracPart.length))
      | _, _ => none

/-! ## Spot price gateway (src/services/metalsService.js, current version) -/

/-- The `TROY_OUNCE_IN_GRAMS` constant (default 31.1035). -/
def TROY_OUNCE_IN_GRAMS : ℚ := 311035 / 10000

/-- The `applyNormalisationOffset` helper:
`price * (1 - offsetPercent / 100)`. -/
def applyNormalisationOffset (price offsetPercent : ℚ) : ℚ :=
  price * (1 - offsetPercent / 100)

/-- The per-gram and per-ounce price record produced by
`calculateAllPrices`. -/
structure AllPrices where
  gold_gram_nzd : ℚ
  silver_gram_nzd : ℚ
  gold_ounce_nzd : ℚ
  silver_ounce_nzd : ℚ
  deriving DecidableEq, Repr

/-- The gram-price record returned by `getSpotPrices`. -/
structure SpotGramPrices where
  gold_gram_nzd : ℚ
  silver_gram_nzd : ℚ
  deriving DecidableEq, Repr

/-- The `calculateAllPrices` utility of the current metalsService:
ounce prices are the gram prices scaled by the troy-ounce constant. -/
def calculateAllPrices (g : SpotGramPrices) : AllPrices :=
  { gold_gram_nzd := g.gold_gram_nzd
    silver_gram_nzd := g.silver_gram_nzd
    gold_ounce_nzd := g.gold_gram_nzd * TROY_OUNCE_IN_GRAMS
    silver_ounce_nzd := g.silver_gram_nzd * TROY_OUNCE_IN_GRAMS }

/-- The `metals` object of a parsed 2xx response body.  A member is
`none` when it is absent or non-numeric (JavaScript `undefined`):
reading such a member does not throw, but arithmetic on it produces
NaN. -/
structure MetalsBody where
  gold : Option ℚ
  silver : Option ℚ
  deriving DecidableEq, Repr

/-- The gram-price record as the JavaScript gateway produces it: a field
is `none` when its value is the floating-point NaN that results from
multiplying an undefined upstream rate by the offset factor. -/
structure JsGramPrices where
  gold_gram_nzd : Option ℚ
  silver_gram_nzd : Option ℚ
  deriving DecidableEq, Repr

/-- Outcome of the upstream `axios.get` call against the metals.dev feed.
`success` is a 2xx response whose body carries a `metals` member (the
member itself may lack numeric rates); `missingMetals` is a 2xx response
without one, so that reading `rates.gold` throws a TypeError inside the
try block; a network error and a non-2xx status are thrown by axios
itself. -/
inductive UpstreamOutcome where
  | success (body : MetalsBody)
  | missingMetals
  | networkError
  | httpErrorStatus
  deriving DecidableEq, Repr

/-- Decides whether the try block of `getSpotPrices` throws for an
outcome: a network error, a non-2xx status, and a 2xx response without a
`metals` member all throw; a present `metals` object never does,
whatever its members hold. -/
def UpstreamOutcome.throwsInTry : UpstreamOutcome → Bool
  | .success _ => false
  | .missingMetals => true
  | .networkError => true
  | .httpErrorStatus => true

/-- The error raised by the catch block of the current `getSpotPrices`:
`throw new Error("Failed to fetch live spot prices.")`. -/
inductive SpotFailure where
  | fetchFailed
  deriving DecidableEq, Repr

/-- The current `getSpotPrices` of src/services/metalsService.js.  The
catch block rethrows — the comment in the source reads "Critical: Do not
return fallback data. Let the error propagate." — so every thrown
failure surfaces as the fetch error.  The try block, however, only
throws when `response.data.metals` itself is absent: when the `metals`
object is present but lacks a numeric gold or silver member, the
offset multiplication yields NaN and the NaN prices are returned, not
raised. -/
def getSpotPrices (upstream : UpstreamOutcome) (offset : ℚ) :
    Except SpotFailure JsGramPrices :=
  match upstream with
  | .success body =>
      .ok { gold_gram_nzd :=
              body.gold.map (fun g => applyNormalisationOffset g offset)
            silver_gram_nzd :=
              body.silver.map (fun s => applyNormalisationOffset s offset) }
  | .missingMetals => .error .fetchFailed
  | .networkError => .error .fetchFailed
  | .httpErrorStatus => .error .fetchFailed

/-- The superseded earlier `getSpotPrices` (also present in the
repository): its catch block substitutes the mock gram prices 115.00
(gold) and 1.50 (silver), offset-adjusted, instead of propagating the
failure.  The current service replaced this behaviour, and the importers
of the current service require `calculateAllPrices`, which only the
current version exports. -/
def getSpotPrices_fallback (upstream : UpstreamOutcome) (offset : ℚ) :
    JsGramPrices :=
  match upstream with
  | .success body =>
      { gold_gram_nzd :=
          body.gold.map (fun g => applyNormalisationOffset g offset)
        silver_gram_nzd :=
          body.silver.map (fun s => applyNormalisationOffset s offset) }
  | _ =>
      { gold_gram_nzd := some (applyNormalisationOffset 115 offset)
        silver_gram_nzd := some (applyNormalisationOffset (3 / 2) offset) }

/-! ## Quote service state model (src/services/quoteService.js)

The relational store is embedded as an explicit record: the
`sequences` row keyed `quote_number`, the `quotes` rows, and the
`quote_items` rows.  Quote primary keys (UUIDs in the source) are
modelled as naturals. -/

/-- Lifecycle status enum of a quote. -/
inductive QStatus where
  | active
  | expired
  deriving DecidableEq, Repr

/-- One row of the `quotes` table, restricted to the columns the verified
operations read or write.  Nullable text columns are `Option String`. -/
structure QuoteRow where
  id : ℕ
  short_id : String
  quote_number : String
  customer_first_name : Option String
  customer_surname : Option String
  customer_mobile : Option String
  customer_email : Option String
  zoho_id : Option String
  spot_price_gold_gram_nzd : ℚ
  spot_price_silver_gram_nzd : ℚ
  spot_price_gold_ounce_nzd : ℚ
  spot_price_silver_ounce_nzd : ℚ
  status : QStatus
  created_at : ℤ
  deriving DecidableEq, Repr

/-- One row of the `quote_items` table. -/
structure QuoteItemRow where
  quote_id : ℕ
  item_name : String
  metal_type : Option String
  percent : Option ℚ
  weight : Option ℚ
  weight_type : Option String
  quantity : ℕ
  deriving DecidableEq, Repr

/-- An item object as submitted to the service layer (one element of the
`items` array).  `none` models an absent / null field. -/
structure ItemInput where
  name : String
  metalType : Option String
  percent : Option ℚ
  weight : Option ℚ
  weightType : Option String
  quantity : Option ℕ
  deriving DecidableEq, Repr

/-- The customer details object submitted to `createQuote` /
`updateQuoteDetails`. -/
structure CustomerDetails where
  firstName : Option String
  surname : Option String
  mobile : Option String
  email : Option String
  zohoId : Option String
  deriving DecidableEq, Repr

/-- The embedded database: the durable `quote_number` counter plus the two
tables. -/
structure QuotesDB where
  seqValue : ℤ
  quotes : List QuoteRow
  quote_items : List QuoteItemRow
  deriving DecidableEq, Repr

/-- JavaScript `x || null` applied to a nullable numeric field: an absent
value or the falsy number 0 both store NULL. -/
def jsOrNullQ (o : Option ℚ) : Option ℚ :=
  match o with
  | none => none
  | some q => if q = 0 then none else some q

/-- JavaScript `x || null` applied to a nullable string field: an absent
value or the falsy empty string both store NULL. -/
def jsOrNullS (o : Option String) : Option String :=
  match o with
  | none => none
  | some s => if s = "" then none else some s

/-- JavaScript `item.quantity || 1`: an absent or zero quantity stores 1. -/
def jsOrOne (o : Option ℕ) : ℕ :=
  match o with
  | none => 1
  | some 0 => 1
  | some n => n

/-- Model of JavaScript `String.prototype.trim`: leading and trailing
whitespace characters are removed. -/
def jsTrim (s : String) : String :=
  String.mk
    (((s.toList.dropWhile Char.isWhitespace).reverse.dropWhile
      Char.isWhitespace).reverse)

/-- The blank-name guard of `_insertQuoteItems`:
`if (item.name && item.name.trim() !== "")`. -/
def keepItem (i : ItemInput) : Bool :=
  i.name != "" && jsTrim i.name != ""

/-- The row built by `_insertQuoteItems` for a kept item: the `itemValues`
array applies `|| null` to percent, weight and weightType and `|| 1` to
quantity; name and metalType are stored as given. -/
def sanitizeItem (quoteId : ℕ) (i : ItemInput) : QuoteItemRow :=
  { quote_id := quoteId
    item_name := i.name
    metal_type := i.metalType
    percent := jsOrNullQ i.percent
    weight := jsOrNullQ i.weight
    weight_type := jsOrNullS i.weightType
    quantity := jsOrOne i.quantity }

/-- The `_insertQuoteItems` helper of the current quoteService: it deletes
every existing item of the quote, then inserts each submitted item whose
name is non-blank, in submission order. -/
def _insertQuoteItems (db : QuotesDB) (quoteId : ℕ) (items : List ItemInput) :
    QuotesDB :=
  { db with
      quote_items :=
        db.quote_items.filter (fun r => r.quote_id ≠ quoteId)
          ++ (items.filter keepItem).map (sanitizeItem quoteId) }

/-- Zero left-padding of `String(value).padStart(6, "0")`. -/
def padStartZeros (s : String) (width : ℕ) : String :=
  String.mk (List.replicate (width - s.length) '0') ++ s

/-- The quote-number format: a fixed `SBQ-` head plus the zero-padded
six-digit counter value. -/
def formatQuoteNumber (n : ℤ) : String :=
  "SBQ-" ++ padStartZeros (toString n) 6

/-! ## Quote creation

Failure injection points for `createQuote`: the `UPDATE sequences` step,
the `INSERT INTO quotes` step, and the item insertion loop.  In the source
any thrown error reaches the catch block, which issues `ROLLBACK` on the
transaction client before rethrowing. -/

/-- The step of `createQuote` at which an injected database error is
thrown. -/
inductive CreateFailure where
  | seqUpdateFails
  | quoteInsertFails
  | itemsInsertFails
  deriving DecidableEq, Repr

/-- The quote row inserted by `createQuote` (both versions): status and
timestamps come from the schema defaults (`active`, `NOW()`). -/
def newQuoteRow (newId : ℕ) (shortId : String) (seqVal : ℤ) (now : ℤ)
    (cust : CustomerDetails) (prices : AllPrices) : QuoteRow :=
  { id := newId
    short_id := shortId
    quote_number := formatQuoteNumber seqVal
    customer_first_name := cust.firstName
    customer_surname := cust.surname
    customer_mobile := cust.mobile
    customer_email := cust.email
    zoho_id := cust.zohoId
    spot_price_gold_gram_nzd := prices.gold_gram_nzd
    spot_price_silver_gram_nzd := prices.silver_gram_nzd
    spot_price_gold_ounce_nzd := prices.gold_ounce_nzd
    spot_price_silver_ounce_nzd := prices.silver_ounce_nzd
    status := .active
    created_at := now }

/-- The current `createQuote` (quoteService with the `_insertQuoteItems`
helper).  It opens a transaction on its own client, but the quote number
comes from `getNextQuoteNumber()`, which acquires a second pool client and
runs `BEGIN; UPDATE sequences ...; COMMIT` there: the counter increment is
durably committed independently of the enclosing transaction.  A failure
injected at the quote-insert or item-insert step therefore rolls back only
the insert, leaving the already-committed counter increment in place; a
failure inside `getNextQuoteNumber` itself is rolled back by the catch
block of that function before the main insert ever runs.
`shortId` is the value produced by `ensureUniqueShortId` (a read-only
resample-until-unused loop; nothing is reserved in the store), and `newId`
the fresh primary key the insert returns. -/
def createQuote (db : QuotesDB) (shortId : String) (newId : ℕ) (now : ℤ)
    (cust : CustomerDetails) (items : List ItemInput)
    (spotPrices : SpotGramPrices) (fail : Option CreateFailure) :
    Except CreateFailure QuoteRow × QuotesDB :=
  match fail with
  | some .seqUpdateFails => (.error .seqUpdateFails, db)
  | fail =>
    let dbSeq : QuotesDB := { db with seqValue := db.seqValue + 1 }
    match fail with
    | some .quoteInsertFails => (.error .quoteInsertFails, dbSeq)
    | some .itemsInsertFails => (.error .itemsInsertFails, dbSeq)
    | _ =>
      let prices := calculateAllPrices spotPrices
      let q := newQuoteRow newId shortId dbSeq.seqValue now cust prices
      let dbQuote : QuotesDB := { dbSeq with quotes := dbSeq.quotes ++ [q] }
      (.ok q, _insertQuoteItems dbQuote newId items)

/-- The earlier `createQuote` (the previous quoteService version, also in
the repository): it runs the `UPDATE sequences` increment on the same
client, inside the same `BEGIN ... COMMIT` as the quote and item inserts,
so a failure at any injected step is fully rolled back.  This version
inserts every submitted item as-is (no blank-name filter and no `|| null`
coercion of percent, weight or weightType; quantity still defaults with
`|| 1`), and the spot prices are the gram prices plus ounce prices scaled
by the troy-ounce constant, computed inline. -/
def createQuote_prev (db : QuotesDB) (shortId : String) (newId : ℕ)
    (now : ℤ) (cust : CustomerDetails) (items : List ItemInput)
    (spotPrices : SpotGramPrices) (fail : Option CreateFailure) :
    Except CreateFailure QuoteRow × QuotesDB :=
  match fail with
  | some e => (.error e, db)
  | none =>
    let seqVal := db.seqValue + 1
    let prices := calculateAllPrices spotPrices
    let q := newQuoteRow newId shortId seqVal now cust prices
    let rows := items.map (fun i =>
      { quote_id := newId
        item_name := i.name
        metal_type := i.metalType
        percent := i.percent
        weight := i.weight
        weight_type := i.weightType
        quantity := jsOrOne i.quantity : QuoteItemRow })
    (.ok q,
      { seqValue := seqVal
        quotes := db.quotes ++ [q]
        quote_items := db.quote_items ++ rows })

/-! ## Quote retrieval and credential validation -/

/-- The `getQuoteByShortId` service function:
`SELECT * FROM quotes WHERE short_id = $1`, returning `null` on a miss,
else the quote together with its `quote_items` rows. -/
def getQuoteByShortId (db : QuotesDB) (shortId : String) :
    Option (QuoteRow × List QuoteItemRow) :=
  match db.quotes.find? (fun q => q.short_id == shortId) with
  | none => none
  | some q => some (q, db.quote_items.filter (fun r => r.quote_id == q.id))

/-- The `validateCustomerCredential` service function:
`SELECT 1 FROM quotes WHERE id = $1 AND (customer_mobile = $2 OR
customer_email = $2)`.  SQL equality against a NULL column is not true, so
a NULL mobile or email never matches; matching is exact string equality
(no trimming, no case folding). -/
def validateCustomerCredential (db : QuotesDB) (id : ℕ)
    (credential : String) : Bool :=
  db.quotes.any (fun q =>
    q.id == id &&
      (q.customer_mobile == some credential
        || q.customer_email == some credential))

/-! ## Customer routes (the quote routes file handling /quote/:shortId) -/

/-- The user-visible response of `POST /quote/:shortId/login`. -/
inductive LoginResponse where
  | loginPage (quoteId : String) (error : Option String)
  | redirectToQuote (shortId : String)
  deriving DecidableEq, Repr

/-- The `POST /:shortId/login` handler: it first compares the credential
against the fixed admin password, then looks the quote up by short id —
a miss renders the login page with the error text "Quote not found." —
then grants access when the customer credential validates or the admin
password matched, and otherwise renders the login page with the generic
invalid-credentials error text. -/
def customerLogin (db : QuotesDB) (adminPassword : String)
    (shortId credential : String) : LoginResponse :=
  let isAdmin := credential == adminPassword
  match getQuoteByShortId db shortId with
  | none => .loginPage shortId (some "Quote not found.")
  | some (q, _) =>
      if validateCustomerCredential db q.id credential || isAdmin then
        .redirectToQuote shortId
      else
        .loginPage shortId
          (some "Invalid mobile number, email, or password. Please try again.")

/-- The response of `GET /quote/:shortId` (the authenticated customer
view). -/
inductive ViewResponse where
  | redirectToLogin (shortId : String)
  | notFound
  | renderQuote (quote : QuoteRow) (items : List QuoteItemRow)
  deriving DecidableEq, Repr

/-- The `GET /:shortId` handler: unauthenticated sessions are redirected
to the login page; otherwise the quote is fetched by short id and the
template `customer_view_quote` is rendered with the complete quote row and
its items — the handler builds no customer-shaped projection and removes
no field before handing the row to the template. -/
def customerQuoteView (db : QuotesDB) (sessionQuoteId : Option String)
    (shortId : String) : ViewResponse :=
  if sessionQuoteId ≠ some shortId then .redirectToLogin shortId
  else
    match getQuoteByShortId db shortId with
    | none => .notFound
    | some (q, items) => .renderQuote q items

/-- The quote row contained in the data handed to the customer view
template, when the request is authenticated and the quote exists. -/
def renderedCustomerQuote (db : QuotesDB) (sessionQuoteId : Option String)
    (shortId : String) : Option QuoteRow :=
  match customerQuoteView db sessionQuoteId shortId with
  | .renderQuote q _ => some q
  | _ => none

/-! ## Expiry sweep (the standalone expire_old_quotes script) -/

/-- The cutoff computed by the sweep: fourteen days before `now`.
Timestamps are modelled as integer milliseconds and a day as a fixed
86400000 ms. -/
def fourteenDaysAgo (now : ℤ) : ℤ :=
  now - 14 * 86400000

/-- Whether one run of the sweep transitions a given row:
the condition `WHERE created_at < $1 AND status = active`. -/
def sweepHits (cutoff : ℤ) (q : QuoteRow) : Bool :=
  q.created_at < cutoff && q.status == .active

/-- The effect of the sweep on one row: a hit row transitions to
expired, any other row is untouched. -/
def sweepStep (cutoff : ℤ) (q : QuoteRow) : QuoteRow :=
  if sweepHits cutoff q then { q with status := .expired } else q

/-- The `expireOldQuotes` script body:
`UPDATE quotes SET status = expired WHERE created_at < $1 AND
status = active`, returning the updated store together with the
affected-row count the script logs. -/
def expireOldQuotes (db : QuotesDB) (cutoff : ℤ) : QuotesDB × ℕ :=
  ({ db with quotes := db.quotes.map (sweepStep cutoff) },
    (db.quotes.filter (sweepHits cutoff)).length)

/-- The content of a stored item row, shaped as the submitted item object
it round-trips to (quantity is always present on a stored row). -/
def rowContent (r : QuoteItemRow) : ItemInput :=
  { name := r.item_name
    metalType := r.metal_type
    percent := r.percent
    weight := r.weight
    weightType := r.weight_type
    quantity := some r.quantity }

/-- The storage coercion `_insertQuoteItems` applies to a kept item: the
falsy fields become NULL (percent and weight equal to 0, empty
weightType) and a missing or zero quantity becomes 1. -/
def coerceItem (i : ItemInput) : ItemInput :=
  { name := i.name
    metalType := i.metalType
    percent := jsOrNullQ i.percent
    weight := jsOrNullQ i.weight
    weightType := jsOrNullS i.weightType
    quantity := some (jsOrOne i.quantity) }

/-! ## Concrete fixtures used by witnesses and counterexamples -/

/-- Empty store with the counter at its seeded value 253 (claim C1). -/
def exDb1 : QuotesDB :=
  { seqValue := 253, quotes := [], quote_items := [] }

/-- Customer details with no field supplied (claim C1). -/
def exCust1 : CustomerDetails :=
  { firstName := none, surname := none, mobile := none, email := none,
    zohoId := none }

/-- A stored quote whose PII fields are all populated (claim C4). -/
def exQuote4 : QuoteRow :=
  { id := 1
    short_id := "abc12345"
    quote_number := "SBQ-000254"
    customer_first_name := some "Jane"
    customer_surname := some "Doe"
    customer_mobile := some "0211234567"
    customer_email := some "jane@example.org"
    zoho_id := some "ZH-77"
    spot_price_gold_gram_nzd := 115
    spot_price_silver_gram_nzd := 2
    spot_price_gold_ounce_nzd := 3577
    spot_price_silver_ounce_nzd := 62
    status := .active
    created_at := 0 }

/-- Store holding that quote (claim C4). -/
def exDb4 : QuotesDB :=
  { seqValue := 254, quotes := [exQuote4], quote_items := [] }

/-- A stored quote with a mobile and a mixed-case email (claim C5). -/
def exQuote5 : QuoteRow :=
  { id := 1
    short_id := "qz5aaaaa"
    quote_number := "SBQ-000255"
    customer_first_name := some "Alex"
    customer_surname := none
    customer_mobile := some "0211234567"
    customer_email := some "Customer@Example.com"
    zoho_id := none
    spot_price_gold_gram_nzd := 115
    spot_price_silver_gram_nzd := 2
    spot_price_gold_ounce_nzd := 3577
    spot_price_silver_ounce_nzd := 62
    status := .active
    created_at := 0 }

/-- Store holding that quote (claim C5). -/
def exDb5 : QuotesDB :=
  { seqValue := 255, quotes := [exQuote5], quote_items := [] }

/-- A stored quote for the login-failure comparison (claim C6). -/
def exQuote6 : QuoteRow :=
  { id := 1
    short_id := "abc12346"
    quote_number := "SBQ-000256"
    customer_first_name := none
    customer_surname := none
    customer_mobile := some "0219999999"
    customer_email := none
    zoho_id := none
    spot_price_gold_gram_nzd := 115
    spot_price_silver_gram_nzd := 2
    spot_price_gold_ounce_nzd := 3577
    spot_price_silver_ounce_nzd := 62
    status := .active
    created_at := 0 }

/-- Store holding exactly that quote; the short id zzzzzzzz is absent
(claim C6). -/
def exDb6 : QuotesDB :=
  { seqValue := 256, quotes := [exQuote6], quote_items := [] }

/-- Empty store for the round-trip scenario (claim C7). -/
def exDb7 : QuotesDB :=
  { seqValue := 253, quotes := [], quote_items := [] }

/-- Customer details for the round-trip scenario (claim C7). -/
def exCust7 : CustomerDetails :=
  { firstName := some "Sam", surname := none, mobile := some "0215550000",
    email := none, zohoId := none }

/-- A single submitted item whose percent is the falsy number 0
(claim C7). -/
def exItems7 : List ItemInput :=
  [{ name := "ring", metalType := some "Gold", percent := some 0,
     weight := some 5, weightType := some "5g", quantity := some 2 }]

/-- A reference instant for the sweep scenario (claim C8). -/
def exNow : ℤ := 1700000000000

/-- An active quote created 15 days before `exNow` (claim C8). -/
def qA8 : QuoteRow :=
  { id := 1
    short_id := "aaaaaaa8"
    quote_number := "SBQ-000257"
    customer_first_name := none
    customer_surname := none
    customer_mobile := some "0210000001"
    customer_email := none
    zoho_id := none
    spot_price_gold_gram_nzd := 115
    spot_price_silver_gram_nzd := 2
    spot_price_gold_ounce_nzd := 3577
    spot_price_silver_ounce_nzd := 62
    status := .active
    created_at := 1700000000000 - 15 * 86400000 }

/-- An expired quote created 100 days before `exNow` (claim C8). -/
def qB8 : QuoteRow :=
  { id := 2
    short_id := "bbbbbbb8"
    quote_number := "SBQ-000258"
    customer_first_name := none
    customer_surname := none
    customer_mobile := some "0210000002"
    customer_email := none
    zoho_id := none
    spot_price_gold_gram_nzd := 110
    spot_price_silver_gram_nzd := 2
    spot_price_gold_ounce_nzd := 3400
    spot_price_silver_ounce_nzd := 60
    status := .expired
    created_at := 1700000000000 - 100 * 86400000 }

/-- A young active quote created 1 day before `exNow` (claim C8). -/
def qC8 : QuoteRow :=
  { id := 3
    short_id := "ccccccc8"
    quote_number := "SBQ-000259"
    customer_first_name := none
    customer_surname := none
    customer_mobile := some "0210000003"
    customer_email := none
    zoho_id := none
    spot_price_gold_gram_nzd := 115
    spot_price_silver_gram_nzd := 2
    spot_price_gold_ounce_nzd := 3577
    spot_price_silver_ounce_nzd := 62
    status := .active
    created_at := 1700000000000 - 86400000 }

/-- Store holding the three quotes (claim C8). -/
def exDb8 : QuotesDB :=
  { seqValue := 259, quotes := [qA8, qB8, qC8], quote_items := [] }

/-! ## Helper lemmas -/

/-- Left fold of addition over a mapped list, expressed as a sum. -/
theorem foldl_add_map_sum {α : Type} (f : α → ℚ) (l : List α) (a : ℚ) :
    l.foldl (fun t r => t + f r) a = a + (l.map f).sum := by
  induction l generalizing a with
  | nil => simp
  | cons x xs ih => simp [ih, add_assoc]

/-- Rounding to two decimals preserves nonnegativity. -/
theorem round2_nonneg {q : ℚ} (h : 0 ≤ q) : 0 ≤ round2 q := by
  unfold round2
  have h0 : (0 : ℤ) ≤ ⌊q * 100 + 1 / 2⌋ := by
    rw [Int.le_floor]
    push_cast
    nlinarith
  positivity

/-- The base price factors through `gramPriceForMetal`. -/
theorem basePrice_eq_gramPriceForMetal (r : ItemRowInput) (p : GramPrices) :
    basePrice r p =
      rowWeight r * (rowQuantity r : ℚ) * gramPriceForMetal p r.metalType := by
  unfold basePrice gramPriceForMetal
  by_cases h1 : r.metalType = "Gold"
  · rw [if_pos h1, if_pos h1]
    ring
  · rw [if_neg h1, if_neg h1]
    by_cases h2 : r.metalType = "Silver"
    · rw [if_pos h2, if_pos h2]
      ring
    · rw [if_neg h2, if_neg h2]
      ring

/-- Search in an appended list skips a left part on which the predicate
is everywhere false. -/
theorem find?_append_left_none {α : Type} (p : α → Bool) (l1 l2 : List α)
    (h : ∀ x ∈ l1, p x = false) : (l1 ++ l2).find? p = l2.find? p := by
  induction l1 with
  | nil => rfl
  | cons x xs ih =>
      have hx := h x (List.mem_cons_self x xs)
      rw [List.cons_append, List.find?_cons_of_neg _ (by simp [hx]),
        ih (fun y hy => h y (List.mem_cons_of_mem x hy))]

/-- Filtering by a predicate that is everywhere false gives the empty
list. -/
theorem filter_eq_nil_of_false {α : Type} (p : α → Bool) (l : List α)
    (h : ∀ x ∈ l, p x = false) : l.filter p = [] := by
  induction l with
  | nil => rfl
  | cons x xs ih =>
      rw [List.filter_cons_of_neg (by simp [h x (List.mem_cons_self x xs)]),
        ih (fun y hy => h y (List.mem_cons_of_mem x hy))]

/-- Filtering by a predicate that is everywhere true keeps the whole
list. -/
theorem filter_eq_self_of_true {α : Type} (p : α → Bool) (l : List α)
    (h : ∀ x ∈ l, p x = true) : l.filter p = l := by
  induction l with
  | nil => rfl
  | cons x xs ih =>
      rw [List.filter_cons_of_pos (h x (List.mem_cons_self x xs)),
        ih (fun y hy => h y (List.mem_cons_of_mem x hy))]

/-- A row the sweep condition misses is untouched by the sweep step. -/
theorem sweepStep_eq_self (cutoff : ℤ) (q : QuoteRow)
    (h : sweepHits cutoff q = false) : sweepStep cutoff q = q := by
  unfold sweepStep
  rw [h]
  rfl

/-- A row the sweep condition hits is genuinely changed by the sweep
step. -/
theorem sweepStep_ne_self (cutoff : ℤ) (q : QuoteRow)
    (h : sweepHits cutoff q = true) : sweepStep cutoff q ≠ q := by
  unfold sweepStep
  rw [h]
  intro heq
  have hst := congrArg QuoteRow.status heq
  have hact : q.status = QStatus.active := by
    unfold sweepHits at h
    rw [Bool.and_eq_true] at h
    simpa using h.2
  rw [hact] at hst
  exact absurd hst (by simp)

/-- After the sweep step, the sweep condition no longer holds of a row. -/
theorem sweepHits_sweepStep (cutoff : ℤ) (q : QuoteRow) :
    sweepHits cutoff (sweepStep cutoff q) = false := by
  unfold sweepStep
  by_cases h : sweepHits cutoff q
  · rw [if_pos h]
    simp [sweepHits]
  · rw [if_neg h]
    simpa using h

/-- Mapping a function that fixes every element of a list is the
identity. -/
theorem map_eq_self_of_id {α : Type} (f : α → α) (l : List α)
    (h : ∀ x ∈ l, f x = x) : l.map f = l :=
  (List.map_congr_left h).trans (List.map_id l)

/-- The number of positions changed by mapping `f` equals the number of
elements on which the predicate `p` holds, provided `f` moves exactly the
`p`-elements. -/
theorem zip_map_count_changed {α : Type} [DecidableEq α] (f : α → α)
    (p : α → Bool) (hpt : ∀ x, p x = true → f x ≠ x)
    (hpf : ∀ x, p x = false → f x = x) (l : List α) :
    ((l.zip (l.map f)).filter (fun pr => pr.1 != pr.2)).length =
      (l.filter p).length := by
  induction l with
  | nil => rfl
  | cons x xs ih =>
      rw [List.map_cons, List.zip_cons_cons, List.filter_cons,
        List.filter_cons]
      by_cases hx : p x = true
      · have h1 : ((x, f x).1 != (x, f x).2) = true := by
          simpa using (hpt x hx).symm
        simp only [h1, hx, if_true, List.length_cons]
        rw [ih]
      · have hx2 : p x = false := by simpa using hx
        have h1 : ((x, f x).1 != (x, f x).2) = false := by
          rw [hpf x hx2]
          simp
        simp only [h1, hx2, Bool.false_eq_true, if_false]
        exact ih

/-! ## Claim theorems -/

/-- Claim C9 (counterexample): for the item with metal type Gold, weight
31.1035 g, quantity 1 and percent 0 at a gold gram price of 115.00, the
computed final is not 3577.00 — the product 31.1035 × 115.00 is 3576.9025 —
and with percent 10 the final is not 3219.30; the displayed two-decimal
values differ from the claimed figures as well. -/
theorem C9_scenario_counterexample :
    calculateItemPrice ⟨"Gold", some TROY_OUNCE_IN_GRAMS, some 1, some 0⟩
        ⟨115, 3 / 2⟩ ≠ 3577 ∧
    displayedItemPrice ⟨"Gold", some TROY_OUNCE_IN_GRAMS, some 1, some 0⟩
        ⟨115, 3 / 2⟩ ≠ 3577 ∧
    calculateItemPrice ⟨"Gold", some TROY_OUNCE_IN_GRAMS, some 1, some 10⟩
        ⟨115, 3 / 2⟩ ≠ 32193 / 10 ∧
    displayedItemPrice ⟨"Gold", some TROY_OUNCE_IN_GRAMS, some 1, some 10⟩
        ⟨115, 3 / 2⟩ ≠ 32193 / 10 := by
  refine ⟨?_, ?_, ?_, ?_⟩ <;>
    · simp only [displayedItemPrice, round2, calculateItemPrice, basePrice,
        rowWeight, rowQuantity, rowPercent, TROY_OUNCE_IN_GRAMS, Option.getD]
      norm_num

/-- Claim C9 (amended): for the item with metal type Gold, weight
31.1035 g, quantity 1 and percent 0 at a gold gram price of 115.00, the
computed item final is 3576.9025 (displayed as 3576.90), and with
percent 10 it is 3219.21225 (displayed as 3219.21). -/
theorem C9_scenario_amended :
    calculateItemPrice ⟨"Gold", some TROY_OUNCE_IN_GRAMS, some 1, some 0⟩
        ⟨115, 3 / 2⟩ = 35769025 / 10000 ∧
    displayedItemPrice ⟨"Gold", some TROY_OUNCE_IN_GRAMS, some 1, some 0⟩
        ⟨115, 3 / 2⟩ = 357690 / 100 ∧
    calculateItemPrice ⟨"Gold", some TROY_OUNCE_IN_GRAMS, some 1, some 10⟩
        ⟨115, 3 / 2⟩ = 321921225 / 100000 ∧
    displayedItemPrice ⟨"Gold", some TROY_OUNCE_IN_GRAMS, some 1, some 10⟩
        ⟨115, 3 / 2⟩ = 321921 / 100 := by
  refine ⟨?_, ?_, ?_, ?_⟩ <;>
    · simp only [displayedItemPrice, round2, calculateItemPrice, basePrice,
        rowWeight, rowQuantity, rowPercent, TROY_OUNCE_IN_GRAMS, Option.getD]
      norm_num

/-- Claim C10: the static weight table resolves the Sovereign denomination
to the value string lit 0 and Half Sovereign to 0.0, both of which parse to
the gram weight 0, and an item whose weight is 0 has computed final price
0 for every metal type, quantity, percent and pair of spot prices. -/
theorem C10_sovereign_denominations_price_zero :
    weightOptions.find? (fun o => o.text == "Sovereign") =
        some ⟨"0", "Sovereign", "Imperial/Other"⟩ ∧
    weightOptions.find? (fun o => o.text == "Half Sovereign") =
        some ⟨"0.0", "Half Sovereign", "Imperial/Other"⟩ ∧
    parseDecimal "0" = some 0 ∧
    parseDecimal "0.0" = some 0 ∧
    ∀ (mt : String) (qty : Option ℕ) (pct : Option ℚ) (p : GramPrices),
      calculateItemPrice ⟨mt, some 0, qty, pct⟩ p = 0 := by
  refine ⟨by decide, by decide, ?_, ?_, ?_⟩
  · simp [parseDecimal, splitDot, decDigits]
  · simp [parseDecimal, splitDot, decDigits]
  · intro mt qty pct p
    simp [calculateItemPrice, basePrice, rowWeight]

/-- Claim C3 (counterexample): the grand total can differ from the sum of
the item finals, because each final is rounded to two decimals for display
before `updateGrandTotal` sums the displayed texts: a single Gold item of
weight 1 g, quantity 1, percent 0 at a gold gram price of 0.006 has final
0.006, but the grand total is 0.01. -/
theorem C3_grand_total_counterexample :
    updateGrandTotal [⟨"Gold", some 1, some 1, some 0⟩] ⟨6 / 1000, 3 / 2⟩ ≠
        ([(⟨"Gold", some 1, some 1, some 0⟩ : ItemRowInput)].map
          (fun r => calculateItemPrice r ⟨6 / 1000, 3 / 2⟩)).sum ∧
    updateGrandTotal [⟨"Gold", some 1, some 1, some 0⟩] ⟨6 / 1000, 3 / 2⟩ =
        1 / 100 ∧
    calculateItemPrice ⟨"Gold", some 1, some 1, some 0⟩ ⟨6 / 1000, 3 / 2⟩ =
        6 / 1000 := by
  refine ⟨?_, ?_, ?_⟩ <;>
    · simp only [updateGrandTotal, List.foldl, List.map, List.sum_cons,
        List.sum_nil, displayedItemPrice, round2, calculateItemPrice,
        basePrice, rowWeight, rowQuantity, rowPercent, Option.getD]
      norm_num

/-- Claim C3 (amended): every item final equals
`max 0 (weight * quantity * gramPriceForMetal * (1 - percent / 100))` —
a metal type other than Gold or Silver yields a zero base price — and is
nonnegative even when percent exceeds 100; the grand total is the sum of
the item finals after each is rounded to two decimals for display, and is
itself nonnegative. -/
theorem C3_valuation_amended (rows : List ItemRowInput) (p : GramPrices) :
    (∀ r : ItemRowInput,
      calculateItemPrice r p =
        max 0 (rowWeight r * (rowQuantity r : ℚ) *
          gramPriceForMetal p r.metalType * (1 - rowPercent r / 100))) ∧
    (∀ r : ItemRowInput, 0 ≤ calculateItemPrice r p) ∧
    updateGrandTotal rows p =
        (rows.map (fun r => round2 (calculateItemPrice r p))).sum ∧
    0 ≤ updateGrandTotal rows p := by
  have hform : ∀ r : ItemRowInput,
      calculateItemPrice r p =
        max 0 (rowWeight r * (rowQuantity r : ℚ) *
          gramPriceForMetal p r.metalType * (1 - rowPercent r / 100)) := by
    intro r
    unfold calculateItemPrice
    rw [basePrice_eq_gramPriceForMetal]
  have hnn : ∀ r : ItemRowInput, 0 ≤ calculateItemPrice r p := by
    intro r
    unfold calculateItemPrice
    exact le_max_left 0 _
  have htot : updateGrandTotal rows p =
      (rows.map (fun r => round2 (calculateItemPrice r p))).sum := by
    unfold updateGrandTotal displayedItemPrice
    rw [foldl_add_map_sum]
    simp
  refine ⟨hform, hnn, htot, ?_⟩
  rw [htot]
  apply List.sum_nonneg
  intro x hx
  obtain ⟨r, _, rfl⟩ := List.mem_map.mp hx
  exact round2_nonneg (hnn r)

/-- Claim C2 (counterexample): a 2xx response whose `metals` object
lacks both numeric rates is a malformed response, yet `getSpotPrices`
returns a price record — both fields the NaN of an undefined rate times
the offset factor — instead of raising the fetch error, so the universal
error-on-upstream-failure does not hold. -/
theorem C2_nan_prices_counterexample :
    getSpotPrices (.success { gold := none, silver := none }) 0 =
      .ok { gold_gram_nzd := none, silver_gram_nzd := none } ∧
    getSpotPrices (.success { gold := none, silver := none }) 0 ≠
      .error .fetchFailed :=
  ⟨rfl, fun h => Except.noConfusion h⟩

/-- Claim C2 (amended): every upstream failure that throws — a network
error, a non-2xx status, or a 2xx response without a `metals` member —
surfaces as the retrievable fetch error and never yields a price record;
a well-formed response yields exactly the offset-adjusted rates; but a
2xx response whose `metals` object is present while a gold or silver
rate is missing or non-numeric is returned as a price record carrying
NaN, not raised. -/
theorem C2_upstream_failure_amended (offset : ℚ) :
    (∀ u : UpstreamOutcome, u.throwsInTry = true →
      getSpotPrices u offset = .error .fetchFailed ∧
        ∀ p : JsGramPrices, getSpotPrices u offset ≠ .ok p) ∧
    (∀ g s : ℚ,
      getSpotPrices (.success { gold := some g, silver := some s }) offset =
        .ok { gold_gram_nzd := some (applyNormalisationOffset g offset),
              silver_gram_nzd := some (applyNormalisationOffset s offset) }) ∧
    (∀ body : MetalsBody, body.gold = none ∨ body.silver = none →
      ∃ p : JsGramPrices,
        getSpotPrices (.success body) offset = .ok p ∧
          (p.gold_gram_nzd = none ∨ p.silver_gram_nzd = none)) := by
  refine ⟨?_, ?_, ?_⟩
  · intro u hu
    cases u with
    | success body => exact absurd hu (by simp [UpstreamOutcome.throwsInTry])
    | missingMetals => exact ⟨rfl, fun p h => Except.noConfusion h⟩
    | networkError => exact ⟨rfl, fun p h => Except.noConfusion h⟩
    | httpErrorStatus => exact ⟨rfl, fun p h => Except.noConfusion h⟩
  · intro g s
    rfl
  · intro body hb
    refine ⟨_, rfl, ?_⟩
    rcases hb with h | h
    · left
      rw [h]
      rfl
    · right
      rw [h]
      rfl

/-- Witness for C2: the network-error mode raises at a concrete offset,
a well-formed body round-trips, and a body with an absent gold rate is
returned with a NaN price. -/
theorem C2_upstream_failure_amended_witness :
    UpstreamOutcome.networkError.throwsInTry = true ∧
    (getSpotPrices .networkError 1 = .error .fetchFailed ∧
      ∀ p : JsGramPrices, getSpotPrices .networkError 1 ≠ .ok p) ∧
    (getSpotPrices (.success { gold := some 115, silver := some 2 }) 1 =
      .ok { gold_gram_nzd := some (applyNormalisationOffset 115 1),
            silver_gram_nzd := some (applyNormalisationOffset 2 1) }) ∧
    (MetalsBody.gold { gold := none, silver := some 2 } = none ∨
      MetalsBody.silver { gold := none, silver := some 2 } = none) ∧
    (∃ p : JsGramPrices,
      getSpotPrices (.success { gold := none, silver := some 2 }) 1 =
          .ok p ∧
        (p.gold_gram_nzd = none ∨ p.silver_gram_nzd = none)) :=
  ⟨rfl,
    (C2_upstream_failure_amended 1).1 .networkError rfl,
    (C2_upstream_failure_amended 1).2.1 115 2,
    Or.inl rfl,
    (C2_upstream_failure_amended 1).2.2 { gold := none, silver := some 2 }
      (Or.inl rfl)⟩

/-- Claim C5: when the quote is stored and its id is unambiguous,
`validateCustomerCredential` accepts a supplied value exactly when it is
string-equal to the stored mobile or the stored email (no trimming, no
case folding), and independently a credential equal to the fixed staff
override secret grants access to any existing quote through the login
route. -/
theorem C5_validateCustomerCredential_exact (db : QuotesDB) (q : QuoteRow)
    (cred : String) (hq : q ∈ db.quotes)
    (huniq : ∀ q2 ∈ db.quotes, q2.id = q.id → q2 = q) :
    (validateCustomerCredential db q.id cred = true ↔
      (q.customer_mobile = some cred ∨ q.customer_email = some cred)) ∧
    (∀ (apw sid : String) (q2 : QuoteRow) (its : List QuoteItemRow),
      cred = apw → getQuoteByShortId db sid = some (q2, its) →
      customerLogin db apw sid cred = .redirectToQuote sid) := by
  constructor
  · unfold validateCustomerCredential
    rw [List.any_eq_true]
    constructor
    · rintro ⟨x, hx, hb⟩
      rw [Bool.and_eq_true] at hb
      obtain ⟨hid, hmatch⟩ := hb
      have hxq : x = q := huniq x hx (by simpa using hid)
      subst hxq
      rw [Bool.or_eq_true] at hmatch
      rcases hmatch with h | h
      · exact Or.inl (by simpa using h)
      · exact Or.inr (by simpa using h)
    · intro hmatch
      refine ⟨q, hq, ?_⟩
      rw [Bool.and_eq_true, Bool.or_eq_true]
      rcases hmatch with h | h
      · exact ⟨by simp, Or.inl (by simp [h])⟩
      · exact ⟨by simp, Or.inr (by simp [h])⟩
  · rintro apw sid q2 its rfl hget
    simp [customerLogin, hget]

/-- Witness for C5: a quote stored with mobile 0211234567 and email
Customer@Example.com; the exact mobile validates, a leading blank or a
case change does not, and the staff override grants access. -/
theorem C5_validateCustomerCredential_exact_witness :
    exQuote5 ∈ exDb5.quotes ∧
    ((validateCustomerCredential exDb5 exQuote5.id "0211234567" = true ↔
        (exQuote5.customer_mobile = some "0211234567" ∨
          exQuote5.customer_email = some "0211234567")) ∧
      (∀ (apw sid : String) (q2 : QuoteRow) (its : List QuoteItemRow),
        "0211234567" = apw → getQuoteByShortId exDb5 sid = some (q2, its) →
        customerLogin exDb5 apw sid "0211234567" = .redirectToQuote sid)) ∧
    validateCustomerCredential exDb5 1 "0211234567" = true ∧
    validateCustomerCredential exDb5 1 " 0211234567" = false ∧
    validateCustomerCredential exDb5 1 "customer@example.com" = false ∧
    validateCustomerCredential exDb5 1 "Customer@Example.com" = true :=
  ⟨by decide,
    C5_validateCustomerCredential_exact exDb5 exQuote5 "0211234567"
      (by decide) (by decide),
    by decide, by decide, by decide, by decide⟩

/-- Claim C6 (counterexample): a login attempt with a wrong credential
against the existing quote abc12346 and one against the absent short id
zzzzzzzz produce login pages with different error texts, so the responses
are distinguishable and reveal whether the quote exists. -/
theorem C6_login_responses_differ_counterexample :
    customerLogin exDb6 "adminpw" "abc12346" "wrong-credential" =
        .loginPage "abc12346"
          (some "Invalid mobile number, email, or password. Please try again.") ∧
    customerLogin exDb6 "adminpw" "zzzzzzzz" "wrong-credential" =
        .loginPage "zzzzzzzz" (some "Quote not found.") ∧
    (some "Invalid mobile number, email, or password. Please try again." :
        Option String) ≠ some "Quote not found." := by
  refine ⟨by decide, by decide, by decide⟩

/-- Claim C6 (amended): a failed login renders the login page in both
cases, but with different error texts — the fixed message Quote not found.
when the short id does not exist, and the generic invalid-credentials
message when the quote exists and neither the customer credential nor the
staff override matches — so the response does leak whether the quote
exists. -/
theorem C6_login_failure_responses (db : QuotesDB) (apw sid cred : String) :
    (getQuoteByShortId db sid = none →
      customerLogin db apw sid cred = .loginPage sid (some "Quote not found.")) ∧
    (∀ (q : QuoteRow) (its : List QuoteItemRow),
      getQuoteByShortId db sid = some (q, its) →
      validateCustomerCredential db q.id cred = false → cred ≠ apw →
      customerLogin db apw sid cred =
        .loginPage sid
          (some "Invalid mobile number, email, or password. Please try again.")) := by
  constructor
  · intro h
    simp [customerLogin, h]
  · intro q its h hv hne
    simp [customerLogin, h, hv, hne]

/-- Witness for C6: both failure branches at the concrete store. -/
theorem C6_login_failure_responses_witness :
    getQuoteByShortId exDb6 "zzzzzzzz" = none ∧
    customerLogin exDb6 "adminpw" "zzzzzzzz" "wrong-credential" =
        .loginPage "zzzzzzzz" (some "Quote not found.") ∧
    customerLogin exDb6 "adminpw" "abc12346" "wrong-credential" =
        .loginPage "abc12346"
          (some "Invalid mobile number, email, or password. Please try again.") :=
  ⟨by decide,
    (C6_login_failure_responses exDb6 "adminpw" "zzzzzzzz"
      "wrong-credential").1 (by decide),
    (C6_login_failure_responses exDb6 "adminpw" "abc12346"
      "wrong-credential").2 exQuote6
      (exDb6.quote_items.filter (fun r => r.quote_id == exQuote6.id))
      (by decide) (by decide) (by decide)⟩

/-- Claim C4 (counterexample): for the authenticated customer view of the
quote abc12345, the data handed to the customer template contains the
stored mobile, email, surname and CRM id — the route passes the complete
quote row, so the customer-shaped data is not free of these fields. -/
theorem C4_customer_view_pii_counterexample :
    renderedCustomerQuote exDb4 (some "abc12345") "abc12345" = some exQuote4 ∧
    exQuote4.customer_mobile = some "0211234567" ∧
    exQuote4.customer_email = some "jane@example.org" ∧
    exQuote4.customer_surname = some "Doe" ∧
    exQuote4.zoho_id = some "ZH-77" := by
  refine ⟨by decide, rfl, rfl, rfl, rfl⟩

/-- Claim C4 (amended): whenever the authenticated customer view renders a
quote, the quote object in the render payload is exactly the stored row —
membership in the store, short id match, and the unfiltered item rows —
so every stored PII field reaches the template; no customer-shaped
projection exists at the route or service boundary. -/
theorem C4_customer_view_passes_full_row (db : QuotesDB)
    (sess : Option String) (sid : String) (q : QuoteRow)
    (items : List QuoteItemRow)
    (h : customerQuoteView db sess sid = .renderQuote q items) :
    q ∈ db.quotes ∧ q.short_id = sid ∧
    items = db.quote_items.filter (fun r => r.quote_id == q.id) ∧
    renderedCustomerQuote db sess sid = some q := by
  have hrend : renderedCustomerQuote db sess sid = some q := by
    unfold renderedCustomerQuote
    rw [h]
  have h0 := h
  unfold customerQuoteView at h0
  by_cases hsess : sess = some sid
  case neg =>
    rw [if_pos (by simpa using hsess)] at h0
    exact absurd h0 (by simp)
  case pos =>
    rw [if_neg (by simp [hsess])] at h0
    rcases hget : getQuoteByShortId db sid with _ | ⟨q2, its2⟩
    · rw [hget] at h0
      exact absurd h0 (by simp)
    · rw [hget] at h0
      simp only [ViewResponse.renderQuote.injEq] at h0
      obtain ⟨hq2, hits2⟩ := h0
      subst hq2
      subst hits2
      unfold getQuoteByShortId at hget
      rcases hf : db.quotes.find? (fun r => r.short_id == sid) with _ | r
      · rw [hf] at hget
        exact absurd hget (by simp)
      · rw [hf] at hget
        simp only [Option.some.injEq, Prod.mk.injEq] at hget
        obtain ⟨hr, hit⟩ := hget
        subst hr
        refine ⟨List.mem_of_find?_eq_some hf, ?_, hit.symm, hrend⟩
        have hp := List.find?_some hf
        simpa using hp

/-- Witness for C4: the amended statement applied at the concrete store. -/
theorem C4_customer_view_passes_full_row_witness :
    exQuote4 ∈ exDb4.quotes ∧ exQuote4.short_id = "abc12345" ∧
    ([] : List QuoteItemRow) =
        exDb4.quote_items.filter (fun r => r.quote_id == exQuote4.id) ∧
    renderedCustomerQuote exDb4 (some "abc12345") "abc12345" =
        some exQuote4 :=
  C4_customer_view_passes_full_row exDb4 (some "abc12345") "abc12345"
    exQuote4 [] (by decide)

/-- Claim C1 (counterexample): starting from an empty store with the
counter at 253, a quote creation that fails at the quote-insert step
returns the error, persists no quote row and no item row — but leaves the
counter at 254: the rollback of the createQuote transaction does not undo
the sequence allocation, because `getNextQuoteNumber` committed it on its
own connection. -/
theorem C1_sequence_burned_counterexample :
    (createQuote exDb1 "abcd1234" 1 0 exCust1 [] ⟨115, 2⟩
        (some CreateFailure.quoteInsertFails)).1 =
      Except.error CreateFailure.quoteInsertFails ∧
    exDb1.seqValue = 253 ∧
    (createQuote exDb1 "abcd1234" 1 0 exCust1 [] ⟨115, 2⟩
        (some CreateFailure.quoteInsertFails)).2.seqValue = 254 ∧
    (createQuote exDb1 "abcd1234" 1 0 exCust1 [] ⟨115, 2⟩
        (some CreateFailure.quoteInsertFails)).2.quotes = [] ∧
    (createQuote exDb1 "abcd1234" 1 0 exCust1 [] ⟨115, 2⟩
        (some CreateFailure.quoteInsertFails)).2.quote_items = [] :=
  ⟨rfl, rfl, rfl, rfl, rfl⟩

/-- Claim C1 (amended): in the current `createQuote` the short-id check
and the quote and item inserts share one transaction, but the quote
number is allocated by `getNextQuoteNumber` in a separately committed
transaction, so a creation that fails after allocation persists no quote
or item row yet advances the counter by one (a failure inside the
allocation itself leaves the store untouched); in the previous
`createQuote`, which ran the counter increment on the same client inside
the same transaction, every failure leaves the store exactly unchanged —
rollback undoes both. -/
theorem C1_allocation_transactionality_amended (db : QuotesDB)
    (shortId : String) (newId : ℕ) (now : ℤ) (cust : CustomerDetails)
    (items : List ItemInput) (sp : SpotGramPrices) :
    (∀ f : CreateFailure,
      (f = CreateFailure.quoteInsertFails ∨ f = CreateFailure.itemsInsertFails) →
      (createQuote db shortId newId now cust items sp (some f)).1 =
          Except.error f ∧
      (createQuote db shortId newId now cust items sp (some f)).2 =
          { db with seqValue := db.seqValue + 1 }) ∧
    ((createQuote db shortId newId now cust items sp
        (some CreateFailure.seqUpdateFails)).2 = db) ∧
    (∀ f : CreateFailure,
      (createQuote_prev db shortId newId now cust items sp (some f)).1 =
          Except.error f ∧
      (createQuote_prev db shortId newId now cust items sp (some f)).2 = db) := by
  refine ⟨?_, rfl, ?_⟩
  · rintro f (rfl | rfl) <;> exact ⟨rfl, rfl⟩
  · intro f
    cases f <;> exact ⟨rfl, rfl⟩

/-- Witness for C1: the amended statement applied at the empty store. -/
theorem C1_allocation_transactionality_amended_witness :
    ((createQuote exDb1 "abcd1234" 1 0 exCust1 [] ⟨115, 2⟩
        (some CreateFailure.quoteInsertFails)).2 =
      { exDb1 with seqValue := exDb1.seqValue + 1 }) ∧
    ((createQuote_prev exDb1 "abcd1234" 1 0 exCust1 [] ⟨115, 2⟩
        (some CreateFailure.quoteInsertFails)).2 = exDb1) :=
  ⟨((C1_allocation_transactionality_amended exDb1 "abcd1234" 1 0 exCust1 []
      ⟨115, 2⟩).1 CreateFailure.quoteInsertFails (Or.inl rfl)).2,
    ((C1_allocation_transactionality_amended exDb1 "abcd1234" 1 0 exCust1 []
      ⟨115, 2⟩).2.2 CreateFailure.quoteInsertFails).2⟩

/-- Claim C7 (counterexample): a submitted item named ring with percent 0
is kept (its name is non-blank), yet the round trip returns it with
percent NULL — the `|| null` coercion in `_insertQuoteItems` — so the
returned item set is not equal to the submitted set after discarding
blank names. -/
theorem C7_roundtrip_counterexample :
    ((getQuoteByShortId
        (createQuote exDb7 "abcd1234" 1 0 exCust7 exItems7 ⟨115, 2⟩ none).2
        "abcd1234").map (fun d => d.2.map rowContent)) =
      some [{ name := "ring", metalType := some "Gold", percent := none,
              weight := some 5, weightType := some "5g",
              quantity := some 2 }] ∧
    exItems7 = [{ name := "ring", metalType := some "Gold",
                  percent := some 0, weight := some 5,
                  weightType := some "5g", quantity := some 2 }] ∧
    keepItem { name := "ring", metalType := some "Gold", percent := some 0,
               weight := some 5, weightType := some "5g",
               quantity := some 2 } = true ∧
    ({ name := "ring", metalType := some "Gold", percent := none,
       weight := some 5, weightType := some "5g",
       quantity := some 2 } : ItemInput) ≠
      { name := "ring", metalType := some "Gold", percent := some 0,
        weight := some 5, weightType := some "5g", quantity := some 2 } := by
  refine ⟨by decide, by decide, by decide, by decide⟩

/-- Claim C7 (amended): when the generated short id is fresh,
`createQuote` succeeds and `getQuoteByShortId` on that short id returns,
in submission order, exactly the submitted items whose names are
non-blank, each transformed by the storage coercion `coerceItem` (percent
and weight equal to 0 and an empty weightType become NULL; a missing or
zero quantity becomes 1); when no kept item is changed by that coercion
the round trip returns the kept submitted items exactly. -/
theorem C7_roundtrip_amended (db : QuotesDB) (shortId : String) (newId : ℕ)
    (now : ℤ) (cust : CustomerDetails) (items : List ItemInput)
    (sp : SpotGramPrices)
    (hshort : ∀ q ∈ db.quotes, q.short_id ≠ shortId) :
    (∃ qrow, (createQuote db shortId newId now cust items sp none).1 =
        Except.ok qrow) ∧
    ((getQuoteByShortId (createQuote db shortId newId now cust items sp none).2
        shortId).map (fun d => d.2.map rowContent)) =
      some ((items.filter keepItem).map coerceItem) ∧
    ((∀ i ∈ items.filter keepItem, coerceItem i = i) →
      ((getQuoteByShortId
          (createQuote db shortId newId now cust items sp none).2
          shortId).map (fun d => d.2.map rowContent)) =
        some (items.filter keepItem)) := by
  have hq : (createQuote db shortId newId now cust items sp none).1 =
      Except.ok (newQuoteRow newId shortId (db.seqValue + 1) now cust
        (calculateAllPrices sp)) := rfl
  have hdb : (createQuote db shortId newId now cust items sp none).2 =
      { seqValue := db.seqValue + 1
        quotes := db.quotes ++ [newQuoteRow newId shortId (db.seqValue + 1)
          now cust (calculateAllPrices sp)]
        quote_items := db.quote_items.filter (fun r => r.quote_id ≠ newId)
          ++ (items.filter keepItem).map (sanitizeItem newId) } := rfl
  have hfilter : ((db.quote_items.filter (fun r => r.quote_id ≠ newId)
      ++ (items.filter keepItem).map (sanitizeItem newId)).filter
        (fun r => r.quote_id ==
          (newQuoteRow newId shortId (db.seqValue + 1) now cust
            (calculateAllPrices sp)).id)) =
      (items.filter keepItem).map (sanitizeItem newId) := by
    rw [List.filter_append]
    rw [filter_eq_nil_of_false _ _ (fun x hx => by
      have hne := (List.mem_filter.mp hx).2
      simp only [decide_eq_true_eq] at hne
      simpa [newQuoteRow] using hne)]
    rw [filter_eq_self_of_true _ _ (fun x hx => by
      obtain ⟨i, _, rfl⟩ := List.mem_map.mp hx
      simp [sanitizeItem, newQuoteRow])]
    exact List.nil_append _
  have hget : getQuoteByShortId
      (createQuote db shortId newId now cust items sp none).2 shortId =
      some (newQuoteRow newId shortId (db.seqValue + 1) now cust
          (calculateAllPrices sp),
        (items.filter keepItem).map (sanitizeItem newId)) := by
    rw [hdb]
    unfold getQuoteByShortId
    rw [find?_append_left_none _ db.quotes _
      (fun x hx => by simpa using hshort x hx)]
    rw [List.find?_cons_of_pos _ (by simp [newQuoteRow])]
    exact congrArg (fun l =>
      some (newQuoteRow newId shortId (db.seqValue + 1) now cust
        (calculateAllPrices sp), l)) hfilter
  have hmap : ((items.filter keepItem).map (sanitizeItem newId)).map
      rowContent = (items.filter keepItem).map coerceItem := by
    rw [List.map_map]
    exact List.map_congr_left (fun i _ => rfl)
  refine ⟨⟨_, hq⟩, ?_, ?_⟩
  · rw [hget]
    exact congrArg some hmap
  · intro hfix
    rw [hget]
    refine congrArg some (hmap.trans ?_)
    exact (List.map_congr_left hfix).trans (List.map_id _)

/-- Witness for C7: the amended statement applied at the empty store with
the single non-blank item of the counterexample fixture. -/
theorem C7_roundtrip_amended_witness :
    (∃ qrow, (createQuote exDb7 "abcd1234" 1 0 exCust7 exItems7 ⟨115, 2⟩
        none).1 = Except.ok qrow) ∧
    ((getQuoteByShortId
        (createQuote exDb7 "abcd1234" 1 0 exCust7 exItems7 ⟨115, 2⟩ none).2
        "abcd1234").map (fun d => d.2.map rowContent)) =
      some ((exItems7.filter keepItem).map coerceItem) ∧
    ((∀ i ∈ exItems7.filter keepItem, coerceItem i = i) →
      ((getQuoteByShortId
          (createQuote exDb7 "abcd1234" 1 0 exCust7 exItems7 ⟨115, 2⟩
            none).2 "abcd1234").map (fun d => d.2.map rowContent)) =
        some (exItems7.filter keepItem)) :=
  C7_roundtrip_amended exDb7 "abcd1234" 1 0 exCust7 exItems7 ⟨115, 2⟩
    (by decide)

/-- Claim C8: the sweep keeps the number and order of rows and
transitions exactly the hit rows: the quote at any position is expired
when it was active with a creation timestamp older than the 14-day
cutoff (so a 15-day-old active quote becomes expired), and is returned
unchanged whenever it was already expired or is not older than the
cutoff; the reported count equals the number of rows actually changed;
and running the sweep again immediately afterwards changes nothing and
reports zero affected rows. -/
theorem C8_expiry_sweep (db : QuotesDB) (now : ℤ) :
    ((expireOldQuotes db (fourteenDaysAgo now)).1.quotes.length =
      db.quotes.length) ∧
    (∀ (i : ℕ) (q : QuoteRow), db.quotes[i]? = some q →
      q.status = QStatus.active → q.created_at < fourteenDaysAgo now →
      (expireOldQuotes db (fourteenDaysAgo now)).1.quotes[i]? =
        some { q with status := QStatus.expired }) ∧
    (∀ (i : ℕ) (q : QuoteRow), db.quotes[i]? = some q →
      (q.status = QStatus.expired ∨ ¬ (q.created_at < fourteenDaysAgo now)) →
      (expireOldQuotes db (fourteenDaysAgo now)).1.quotes[i]? = some q) ∧
    ((expireOldQuotes db (fourteenDaysAgo now)).2 =
      ((db.quotes.zip
          (expireOldQuotes db (fourteenDaysAgo now)).1.quotes).filter
        (fun pr => pr.1 != pr.2)).length) ∧
    (expireOldQuotes (expireOldQuotes db (fourteenDaysAgo now)).1
        (fourteenDaysAgo now) =
      ((expireOldQuotes db (fourteenDaysAgo now)).1, 0)) := by
  have hquotes : (expireOldQuotes db (fourteenDaysAgo now)).1.quotes =
      db.quotes.map (sweepStep (fourteenDaysAgo now)) := rfl
  have hpos : ∀ i : ℕ,
      (expireOldQuotes db (fourteenDaysAgo now)).1.quotes[i]? =
        (db.quotes[i]?).map (sweepStep (fourteenDaysAgo now)) := by
    intro i
    rw [hquotes, List.getElem?_map]
  have hsecond : ∀ db2 : QuotesDB,
      (∀ x ∈ db2.quotes, sweepHits (fourteenDaysAgo now) x = false) →
      expireOldQuotes db2 (fourteenDaysAgo now) = (db2, 0) := by
    intro db2 hall2
    unfold expireOldQuotes
    rw [map_eq_self_of_id _ _
        (fun x hx => sweepStep_eq_self _ _ (hall2 x hx)),
      filter_eq_nil_of_false _ _ hall2]
    rfl
  refine ⟨?_, ?_, ?_, ?_, ?_⟩
  · rw [hquotes, List.length_map]
  · intro i q hi hact hcr
    have hhit : sweepHits (fourteenDaysAgo now) q = true := by
      simp [sweepHits, hact, hcr]
    have hstep : sweepStep (fourteenDaysAgo now) q =
        { q with status := QStatus.expired } := by
      unfold sweepStep
      rw [if_pos hhit]
    rw [hpos i, hi]
    exact congrArg some hstep
  · intro i q hi hcond
    have hmiss : sweepHits (fourteenDaysAgo now) q = false := by
      rcases hcond with hexp | hyoung
      · simp [sweepHits, hexp]
      · simp [sweepHits, hyoung]
    rw [hpos i, hi]
    exact congrArg some (sweepStep_eq_self _ _ hmiss)
  · rw [hquotes]
    exact (zip_map_count_changed (sweepStep (fourteenDaysAgo now))
      (sweepHits (fourteenDaysAgo now))
      (sweepStep_ne_self (fourteenDaysAgo now))
      (sweepStep_eq_self (fourteenDaysAgo now)) db.quotes).symm
  · refine hsecond _ ?_
    intro x hx
    rw [hquotes] at hx
    obtain ⟨q, _, rfl⟩ := List.mem_map.mp hx
    exact sweepHits_sweepStep _ q

/-- Witness for C8: in the concrete store, the 15-day-old active quote
at position 0 is expired by the sweep, the already-expired quote at
position 1 and the 1-day-old active quote at position 2 are returned
unchanged, and the immediate second run is the identity with zero
affected rows. -/
theorem C8_expiry_sweep_witness :
    ((expireOldQuotes exDb8 (fourteenDaysAgo exNow)).1.quotes[0]? =
      some { qA8 with status := QStatus.expired }) ∧
    ((expireOldQuotes exDb8 (fourteenDaysAgo exNow)).1.quotes[1]? =
      some qB8) ∧
    ((expireOldQuotes exDb8 (fourteenDaysAgo exNow)).1.quotes[2]? =
      some qC8) ∧
    (expireOldQuotes (expireOldQuotes exDb8 (fourteenDaysAgo exNow)).1
        (fourteenDaysAgo exNow) =
      ((expireOldQuotes exDb8 (fourteenDaysAgo exNow)).1, 0)) := by
  obtain ⟨h1, h2, h3, h4, h5⟩ := C8_expiry_sweep exDb8 exNow
  exact ⟨h2 0 qA8 (by decide) (by decide) (by decide),
    h3 1 qB8 (by decide) (Or.inl (by decide)),
    h3 2 qC8 (by decide) (Or.inr (by decide)),
    h5⟩

end ChchGold
